import Mathlib

/-!
Verification of the PRNG core and generation context of the Faker library.

JS `number` values are modelled as exact rationals (`ℚ`).  The 32-bit
coercions that the source performs explicitly through bitwise operators
(`>>>`, `^`, `|`, `Math.imul`) are modelled exactly; plain `+`, `*`, `/`
are modelled as exact rational arithmetic, which agrees with IEEE doubles
on every value reached in the theorems below.
-/

namespace Faker

/-- 2^32, the modulus of all JS 32-bit coercions. -/
def U32 : Nat := 4294967296

/-- Truncation toward zero of a rational, as in the ToInt32/ToUint32
abstract operations of the JS spec. -/
def truncQ (q : ℚ) : Int := Int.tdiv q.num (q.den : Int)

/-- JS ToUint32: truncate toward zero, take the value mod 2^32. -/
def toUint32 (q : ℚ) : Nat := (Int.emod (truncQ q) (U32 : Int)).toNat

/-- Reinterpret an unsigned 32-bit pattern as a signed 32-bit integer. -/
def u32ToI32 (u : Nat) : Int := if u < 2147483648 then (u : Int) else (u : Int) - (U32 : Int)

/-- JS `a >>> k` for a constant shift `k` (result is an unsigned 32-bit value). -/
def jsShrU (a : ℚ) (k : Nat) : ℚ := ((toUint32 a >>> k : Nat) : ℚ)

/-- JS `a ^ b`: both operands coerced to 32 bits, bitwise xor, signed result. -/
def jsXor (a b : ℚ) : ℚ := ((u32ToI32 (toUint32 a ^^^ toUint32 b) : Int) : ℚ)

/-- JS `a | b`: both operands coerced to 32 bits, bitwise or, signed result. -/
def jsOr (a b : ℚ) : ℚ := ((u32ToI32 (toUint32 a ||| toUint32 b) : Int) : ℚ)

/-- JS `Math.imul(a, b)`: 32-bit multiplication, signed 32-bit result. -/
def jsImul (a b : ℚ) : ℚ := ((u32ToI32 ((toUint32 a * toUint32 b) % U32) : Int) : ℚ)

/-- Embedding of `class RandomNumberGenerator` (src/core/RandomNumberGenerator.ts):
mutable field `state` and immutable field `originalSeed`. -/
structure RandomNumberGenerator where
  state : ℚ
  originalSeed : ℚ
deriving DecidableEq, Repr

/-- The constructor `new RandomNumberGenerator(seed)`. -/
def mkRNG (seed : ℚ) : RandomNumberGenerator := ⟨seed, seed⟩

/-- `next()`: the Mulberry32 step.  `state += 0x6d2b79f5` is a plain
double addition (the source applies no 32-bit coercion to `state`);
the temporary `t` goes through the JS bitwise operators, which do coerce.
Returns the drawn value in [0,1) together with the updated generator. -/
def RandomNumberGenerator.next (r : RandomNumberGenerator) : ℚ × RandomNumberGenerator :=
  let s : ℚ := r.state + 1831565813
  let t1 : ℚ := jsImul (jsXor s (jsShrU s 15)) (jsOr s 1)
  let t2 : ℚ := jsXor t1 (t1 + jsImul (jsXor t1 (jsShrU t1 7)) (jsOr t1 61))
  (((toUint32 (jsXor t2 (jsShrU t2 14)) : Nat) : ℚ) / 4294967296, ⟨s, r.originalSeed⟩)

/-- Convert an integral nonnegative rational (a JS array index) to a `Nat`. -/
def qToNat (q : ℚ) : Nat := (truncQ q).toNat

/-- `int(min, max)`: throws when `min > max`, otherwise
`Math.floor(this.next() * (max - min + 1)) + min`.  The error path runs
before `next()` is called, so it does not advance the state. -/
def RandomNumberGenerator.int (r : RandomNumberGenerator) (min max : ℚ) :
    Except String ℚ × RandomNumberGenerator :=
  if min > max then
    (Except.error "Min value cannot be greater than max value", r)
  else
    let (u, r') := r.next
    (Except.ok ((⌊u * (max - min + 1)⌋ : Int) + min), r')

/-- JS `Number(value.toFixed(p))` for a nonnegative integer precision `p`:
round to the nearest multiple of `10^-p`, ties toward the larger value. -/
def toFixedQ (x : ℚ) (p : Nat) : ℚ := ((⌊x * 10 ^ p + 1/2⌋ : Int) : ℚ) / 10 ^ p

/-- `float(min, max, precision?)`: throws when `min > max`, otherwise
`this.next() * (max - min) + min`, rounded via `toFixed` when a
nonnegative precision is supplied.  Precision is modelled as an optional
integer (the source accepts any number; only integral precisions reach
`toFixed` without a `RangeError` in practice). -/
def RandomNumberGenerator.float (r : RandomNumberGenerator) (min max : ℚ)
    (precision : Option Int) : Except String ℚ × RandomNumberGenerator :=
  if min > max then
    (Except.error "Min value cannot be greater than max value", r)
  else
    let (u, r') := r.next
    let value := u * (max - min) + min
    match precision with
    | some p => if 0 ≤ p then (Except.ok (toFixedQ value p.toNat), r')
                else (Except.ok value, r')
    | none => (Except.ok value, r')

/-- `boolean(probability)`: throws when the probability is outside [0,1],
otherwise `this.next() < probability`. -/
def RandomNumberGenerator.boolean (r : RandomNumberGenerator) (probability : ℚ) :
    Except String Bool × RandomNumberGenerator :=
  if probability < 0 ∨ probability > 1 then
    (Except.error "Probability must be between 0 and 1", r)
  else
    let (u, r') := r.next
    (Except.ok (decide (u < probability)), r')

/-- `pick(array)`: throws on the empty array, otherwise indexes with
`int(0, length - 1)`.  JS array access is modelled with `Option`
(out-of-bounds would be `undefined`). -/
def RandomNumberGenerator.pick (r : RandomNumberGenerator) (array : List α) :
    Except String (Option α) × RandomNumberGenerator :=
  if array.length = 0 then
    (Except.error "Cannot pick from an empty array", r)
  else
    match r.int 0 ((array.length : ℚ) - 1) with
    | (Except.ok j, r') => (Except.ok array[qToNat j]?, r')
    | (Except.error e, r') => (Except.error e, r')

/-- The destructuring swap `[a[i], a[j]] = [a[j], a[i]]`: both old values
are read before either index is written.  Out-of-bounds indices (never
reached by `shuffle`) leave the list unchanged. -/
def swapL (l : List α) (i j : Nat) : List α :=
  match l[i]?, l[j]? with
  | some a, some b => (l.set i b).set j a
  | _, _ => l

/-- The Fisher-Yates loop `for (let i = n-1; i > 0; i--)`, indexed by the
current value of `i`. -/
def shuffleGo : RandomNumberGenerator → List α → Nat → List α × RandomNumberGenerator
  | r, l, 0 => (l, r)
  | r, l, i + 1 =>
    match r.int 0 (((i : ℚ) + 1)) with
    | (Except.ok j, r') => shuffleGo r' (swapL l (i + 1) (qToNat j)) i
    | (Except.error _, r') => shuffleGo r' l i

/-- `shuffle(array)`: copies the input (value semantics make the copy
implicit) and runs Fisher-Yates from the last index down to 1. -/
def RandomNumberGenerator.shuffle (r : RandomNumberGenerator) (array : List α) :
    List α × RandomNumberGenerator :=
  shuffleGo r array (array.length - 1)

/-- `setSeed(seed)` on the generator: replaces `state`, keeps `originalSeed`. -/
def RandomNumberGenerator.setSeed (r : RandomNumberGenerator) (seed : ℚ) :
    RandomNumberGenerator := ⟨seed, r.originalSeed⟩

/-- One draw call with its arguments, for stating determinism of call
sequences.  Element type `α` covers `pick`/`shuffle` inputs. -/
inductive DrawCall (α : Type) where
  | next : DrawCall α
  | int (min max : ℚ) : DrawCall α
  | float (min max : ℚ) (precision : Option Int) : DrawCall α
  | boolean (probability : ℚ) : DrawCall α
  | pick (array : List α) : DrawCall α
  | shuffle (array : List α) : DrawCall α

/-- Observable outcome of one draw call. -/
inductive DrawOut (α : Type) where
  | num (q : ℚ) : DrawOut α
  | bool (b : Bool) : DrawOut α
  | elem (a : Option α) : DrawOut α
  | list (l : List α) : DrawOut α
  | err (msg : String) : DrawOut α
deriving DecidableEq

/-- Apply one draw call to a generator. -/
def step (r : RandomNumberGenerator) : DrawCall α → DrawOut α × RandomNumberGenerator
  | DrawCall.next => let (v, r') := r.next; (DrawOut.num v, r')
  | DrawCall.int min max =>
    match r.int min max with
    | (Except.ok v, r') => (DrawOut.num v, r')
    | (Except.error e, r') => (DrawOut.err e, r')
  | DrawCall.float min max p =>
    match r.float min max p with
    | (Except.ok v, r') => (DrawOut.num v, r')
    | (Except.error e, r') => (DrawOut.err e, r')
  | DrawCall.boolean p =>
    match r.boolean p with
    | (Except.ok b, r') => (DrawOut.bool b, r')
    | (Except.error e, r') => (DrawOut.err e, r')
  | DrawCall.pick a =>
    match r.pick a with
    | (Except.ok x, r') => (DrawOut.elem x, r')
    | (Except.error e, r') => (DrawOut.err e, r')
  | DrawCall.shuffle a => let (l, r') := r.shuffle a; (DrawOut.list l, r')

/-- Run a sequence of draw calls, collecting the outputs in order. -/
def runCalls (r : RandomNumberGenerator) : List (DrawCall α) → List (DrawOut α)
  | [] => []
  | c :: cs => let (o, r') := step r c; o :: runCalls r' cs

/-- The literal `SUPPORTED_LOCALES` set from src/core/GeneratorContext.ts
(the source literal lists "ka" twice; the JS `Set` deduplicates, and for
membership a list with a duplicate is equivalent). -/
def SUPPORTED_LOCALES : List String :=
  ["en", "es", "fr", "de", "it", "pt", "ru", "zh", "ja", "ko", "ar", "hi",
   "tr", "pl", "nl", "sv", "da", "no", "fi", "cs", "hu", "ro", "bg", "hr",
   "sk", "sl", "et", "lv", "lt", "mt", "ga", "cy", "eu", "ca", "gl", "is",
   "mk", "sq", "sr", "bs", "me", "uk", "be", "ka", "am", "az", "kk", "ky",
   "mn", "tg", "tk", "uz", "fa", "ur", "bn", "gu", "kn", "ml", "mr", "ne",
   "or", "pa", "si", "ta", "te", "th", "vi", "my", "km", "lo", "ka", "hy",
   "he", "yi", "ms", "id", "tl", "sw", "zu", "xh", "af", "st", "tn", "ts",
   "ve", "ss", "nr", "nso", "lg", "rw", "so", "om", "ti", "aa", "ha", "yo",
   "ig", "ff", "wo", "sn"]

/-- `SUPPORTED_LOCALES.has(locale)`. -/
def isSupportedLocale (locale : String) : Bool := SUPPORTED_LOCALES.contains locale

/-- The error message built by `validateLocale`. -/
def unsupportedLocaleMessage (locale : String) : String :=
  "Unsupported locale: " ++ locale ++ ". Supported locales are: " ++
    String.intercalate ", " (SUPPORTED_LOCALES.mergeSort (fun a b => a ≤ b))

/-- Embedding of `class GeneratorContext` (src/core/GeneratorContext.ts):
current seed, current locale, the owned PRNG, and the snapshot taken at
construction for `initialConfig`. -/
structure GeneratorContext where
  seed : ℚ
  locale : String
  rng : RandomNumberGenerator
  initialSeed : ℚ
  initialLocale : String
deriving DecidableEq, Repr

/-- The `GeneratorContext` constructor with an explicit seed and locale
(the `Date.now()` default for an omitted seed is nondeterministic and not
modelled).  `config.seed && config.seed < 0` throws: a provided seed is
falsy exactly when it is zero.  Then the locale is validated. -/
def makeContext (seed : ℚ) (locale : String) : Except String GeneratorContext :=
  if seed ≠ 0 ∧ seed < 0 then
    Except.error "Should be positive number"
  else if ¬ isSupportedLocale locale then
    Except.error (unsupportedLocaleMessage locale)
  else
    Except.ok ⟨seed, locale, mkRNG seed, seed, locale⟩

/-- `setSeed(seed)` on the context: no validation; installs the seed and
rebuilds the PRNG from it. -/
def GeneratorContext.setSeed (ctx : GeneratorContext) (seed : ℚ) : GeneratorContext :=
  { ctx with seed := seed, rng := mkRNG seed }

/-- `setLocale(locale)`: `validateLocale` throws first (no mutation),
otherwise the held locale is updated in place.  The pair returns the JS
outcome together with the context after the call. -/
def GeneratorContext.setLocale (ctx : GeneratorContext) (locale : String) :
    Except String Unit × GeneratorContext :=
  if isSupportedLocale locale then
    (Except.ok (), { ctx with locale := locale })
  else
    (Except.error (unsupportedLocaleMessage locale), ctx)

/-- `clone()`: `new GeneratorContext({ seed: this.seed, locale: this.locale })`.
The constructor can throw (a negative current seed installed by `setSeed`
is rejected), hence the `Except`. -/
def GeneratorContext.clone (ctx : GeneratorContext) : Except String GeneratorContext :=
  makeContext ctx.seed ctx.locale

theorem toUint32_lt (q : ℚ) : toUint32 q < 4294967296 := by
  have h1 : 0 ≤ Int.emod (truncQ q) ((U32 : Nat) : Int) :=
    Int.emod_nonneg _ (by norm_num [U32])
  have h2 : Int.emod (truncQ q) ((U32 : Nat) : Int) < ((U32 : Nat) : Int) :=
    Int.emod_lt_of_pos _ (by norm_num [U32])
  unfold toUint32
  simp only [U32] at h2 ⊢
  omega

theorem next_val_nonneg (r : RandomNumberGenerator) : 0 ≤ (r.next).1 := by
  unfold RandomNumberGenerator.next
  dsimp only
  positivity

theorem next_val_lt_one (r : RandomNumberGenerator) : (r.next).1 < 1 := by
  unfold RandomNumberGenerator.next
  dsimp only
  rw [div_lt_one (by norm_num)]
  exact_mod_cast toUint32_lt _

theorem cons_set_perm : ∀ (xs : List α) (k : Nat) (x b : α),
    xs[k]? = some b → List.Perm (b :: xs.set k x) (x :: xs)
  | [], k, x, b, h => by simp at h
  | y :: ys, 0, x, b, h => by
    have hb : b = y := by simpa using h.symm
    subst hb
    simpa [List.set] using List.Perm.swap x b ys
  | y :: ys, k + 1, x, b, h => by
    simp at h
    have ih := cons_set_perm ys k x b h
    have s1 : List.Perm (b :: y :: ys.set k x) (y :: b :: ys.set k x) :=
      List.Perm.swap y b _
    have s2 : List.Perm (y :: b :: ys.set k x) (y :: x :: ys) := List.Perm.cons y ih
    have s3 : List.Perm (y :: x :: ys) (x :: y :: ys) := List.Perm.swap x y ys
    simpa [List.set] using (s1.trans s2).trans s3

theorem set_set_perm : ∀ (l : List α) (i j : Nat) (a b : α),
    l[i]? = some a → l[j]? = some b → List.Perm ((l.set i b).set j a) l
  | [], _, _, _, _, ha, _ => by simp at ha
  | x :: xs, 0, 0, a, b, ha, hb => by
    have h1 : a = x := by simpa using ha.symm
    subst h1
    simp [List.set]
  | x :: xs, 0, j + 1, a, b, ha, hb => by
    have h1 : a = x := by simpa using ha.symm
    subst h1
    simp at hb
    simpa [List.set] using cons_set_perm xs j a b hb
  | x :: xs, i + 1, 0, a, b, ha, hb => by
    have h1 : b = x := by simpa using hb.symm
    subst h1
    simp at ha
    simpa [List.set] using cons_set_perm xs i b a ha
  | x :: xs, i + 1, j + 1, a, b, ha, hb => by
    simp at ha hb
    simpa [List.set] using List.Perm.cons x (set_set_perm xs i j a b ha hb)

theorem swapL_perm (l : List α) (i j : Nat) : List.Perm (swapL l i j) l := by
  unfold swapL
  split
  case _ a b ha hb => exact set_set_perm l i j a b ha hb
  case _ => exact List.Perm.refl l

theorem shuffleGo_perm : ∀ (i : Nat) (r : RandomNumberGenerator) (l : List α),
    List.Perm (shuffleGo r l i).1 l
  | 0, _, l => List.Perm.refl l
  | i + 1, r, l => by
    unfold shuffleGo
    split
    case _ j r' _ => exact (shuffleGo_perm i r' _).trans (swapL_perm l (i + 1) (qToNat j))
    case _ e r' _ => exact shuffleGo_perm i r' l

attribute [local semireducible] Rat.add Rat.mul Rat.sub Rat.inv

deriving instance DecidableEq for Except

/-- A concrete context: `new GeneratorContext({ seed: 1, locale: "en" })`. -/
def ctxEx : GeneratorContext := ⟨1, "en", mkRNG 1, 1, "en"⟩

/-- `ctxEx` after one draw has been made through its generator. -/
def ctxDrawn : GeneratorContext := { ctxEx with rng := ((ctxEx.rng).next).2 }

/-- The generator after `k` calls to `next()`. -/
def nextIter (r : RandomNumberGenerator) : Nat → RandomNumberGenerator
  | 0 => r
  | k + 1 => ((nextIter r k).next).2

theorem next_fst_eq_of_state_eq (r r' : RandomNumberGenerator)
    (h : r.state = r'.state) : (r.next).1 = (r'.next).1 := by
  unfold RandomNumberGenerator.next
  dsimp only
  rw [h]

theorem next_snd_state (r : RandomNumberGenerator) :
    ((r.next).2).state = r.state + 1831565813 := rfl

/-- C1: for every seed `s` and every fixed finite sequence of draw calls
(next, int, float, boolean, pick, shuffle) with identical arguments, two
`RandomNumberGenerator` instances constructed with seed `s` produce
identical output sequences, element-for-element.  In the pure embedding
the generator's behaviour is a function of its state alone, so the two
runs coincide definitionally. -/
theorem prng_determinism (s : ℚ) (calls : List (DrawCall ℚ)) :
    (let r1 := mkRNG s
     let r2 := mkRNG s
     runCalls r1 calls = runCalls r2 calls) := rfl

/-- C4 counterexample: starting from seed 0, after three `next()` calls the
`state` field equals 3 * 0x6d2b79f5 = 5494697439 ≥ 2^32, so `state` is not
coerced to the unsigned 32-bit range after every update. -/
theorem state_not_uint32_cex :
    ¬ (((((mkRNG 0).next.2).next.2).next.2).state < 4294967296) := by decide

/-- C4 amended: `state` is never coerced: after `k` calls to `next()` it
equals `seed + k * 0x6d2b79f5` (exact arithmetic; the JS double tracks
this exactly until it exceeds 2^53).  Only the temporary `t` inside
`next()` is coerced to 32 bits, and every drawn value lies in [0, 1). -/
theorem state_evolution (seed : ℚ) (k : Nat) :
    (nextIter (mkRNG seed) k).state = seed + k * 1831565813 ∧
    0 ≤ ((nextIter (mkRNG seed) k).next).1 ∧
    ((nextIter (mkRNG seed) k).next).1 < 1 := by
  refine ⟨?_, next_val_nonneg _, next_val_lt_one _⟩
  induction k with
  | zero => simp [nextIter, mkRNG]
  | succ n ih =>
    have : (nextIter (mkRNG seed) (n + 1)).state
        = (nextIter (mkRNG seed) n).state + 1831565813 := next_snd_state _
    rw [this, ih]
    push_cast
    ring

/-- C3 counterexample: `min = max = 5` passes the guard (`min > max` is
false), and the call returns exactly 5, violating `v < max`. -/
theorem float_bounds_cex :
    ((mkRNG 0).float 5 5 none).1 = Except.ok 5 ∧ ¬ ((5 : ℚ) < 5) :=
  ⟨by decide, by norm_num⟩

/-- C3 amended: for `min ≤ max` and no precision argument, `float` succeeds
and returns `v` with `min ≤ v`; moreover `v < max` whenever `min < max`,
and `v = min` when `min = max` (so the strict upper bound fails exactly in
the degenerate case; a nonnegative precision can additionally round the
result up to or beyond `max`). -/
theorem float_spec (r : RandomNumberGenerator) (min max : ℚ) (h : min ≤ max) :
    ∃ v, (r.float min max none).1 = Except.ok v ∧ min ≤ v ∧
      (min < max → v < max) ∧ (min = max → v = min) := by
  unfold RandomNumberGenerator.float
  rw [if_neg (not_lt.mpr h)]
  dsimp only
  refine ⟨(r.next).1 * (max - min) + min, rfl, ?_, ?_, ?_⟩
  · have hu := next_val_nonneg r
    nlinarith [mul_nonneg hu (sub_nonneg.mpr h)]
  · intro hlt
    have hu1 := next_val_lt_one r
    nlinarith [mul_lt_mul_of_pos_right hu1 (sub_pos.mpr hlt)]
  · intro heq
    rw [heq]
    ring

/-- C3 witness: `float(0, 1)` on a fresh generator. -/
theorem float_spec_witness :
    (0 : ℚ) ≤ 1 ∧ ∃ v, ((mkRNG 0).float 0 1 none).1 = Except.ok v ∧ (0 : ℚ) ≤ v ∧
      ((0 : ℚ) < 1 → v < 1) ∧ ((0 : ℚ) = 1 → v = 0) :=
  ⟨by norm_num, float_spec (mkRNG 0) 0 1 (by norm_num)⟩

/-- C5: for integer `min ≤ max`, `int(min, max)` returns an integer `v`
with `min ≤ v ≤ max`, computed as `floor(next() * (max - min + 1)) + min`. -/
theorem int_spec (r : RandomNumberGenerator) (min max : Int) (h : min ≤ max) :
    ∃ v : Int, (r.int (min : ℚ) (max : ℚ)).1 = Except.ok ((v : ℚ)) ∧
      min ≤ v ∧ v ≤ max ∧
      (v : ℚ) = ((⌊((r.next).1) * ((max : ℚ) - (min : ℚ) + 1)⌋ : Int) : ℚ) + (min : ℚ) := by
  have hq : (min : ℚ) ≤ (max : ℚ) := by exact_mod_cast h
  unfold RandomNumberGenerator.int
  rw [if_neg (not_lt.mpr hq)]
  dsimp only
  refine ⟨⌊(r.next).1 * ((max : ℚ) - (min : ℚ) + 1)⌋ + min, ?_, ?_, ?_, by push_cast; ring⟩
  · congr 1
    push_cast
    ring
  · have hu := next_val_nonneg r
    have hD : (0 : ℚ) ≤ (max : ℚ) - (min : ℚ) + 1 := by linarith
    have hfl : 0 ≤ ⌊(r.next).1 * ((max : ℚ) - (min : ℚ) + 1)⌋ :=
      Int.floor_nonneg.mpr (mul_nonneg hu hD)
    omega
  · have hu := next_val_nonneg r
    have hu1 := next_val_lt_one r
    have hDpos : (0 : ℚ) < (max : ℚ) - (min : ℚ) + 1 := by linarith
    have hlt : (r.next).1 * ((max : ℚ) - (min : ℚ) + 1) < (max : ℚ) - (min : ℚ) + 1 := by
      nlinarith
    have hfl : ⌊(r.next).1 * ((max : ℚ) - (min : ℚ) + 1)⌋ < max - min + 1 := by
      apply Int.floor_lt.mpr
      push_cast
      linarith
    omega

/-- C5 witness: `int(0, 9)` on a fresh generator. -/
theorem int_spec_witness :
    (0 : Int) ≤ 9 ∧ ∃ v : Int, ((mkRNG 0).int ((0 : Int) : ℚ) ((9 : Int) : ℚ)).1 =
        Except.ok ((v : ℚ)) ∧ (0 : Int) ≤ v ∧ v ≤ 9 ∧
      (v : ℚ) = ((⌊(((mkRNG 0).next).1) * (((9 : Int) : ℚ) - ((0 : Int) : ℚ) + 1)⌋ : Int) : ℚ)
        + ((0 : Int) : ℚ) :=
  ⟨by norm_num, int_spec (mkRNG 0) 0 9 (by norm_num)⟩

/-- C2 counterexample: after one draw on the original, the clone is
reseeded from the construction seed (not from the current PRNG state), so
the clone's first draw differs from the draw the original would produce
next at clone time. -/
theorem clone_first_draw_cex :
    GeneratorContext.clone ctxDrawn = Except.ok ctxEx ∧
    ((ctxEx.rng).next).1 ≠ ((ctxDrawn.rng).next).1 :=
  ⟨by decide, by decide⟩

/-- C2 amended: `clone()` returns an independent context with the same
seed and locale and a fresh PRNG seeded with the original construction
seed; its first draw equals the draw the original would produce next only
when the original has not yet been drawn from (`state = seed`).  Drawing
from either value never mutates the other (value semantics). -/
theorem clone_spec (ctx c : GeneratorContext)
    (h : GeneratorContext.clone ctx = Except.ok c) :
    c.seed = ctx.seed ∧ c.locale = ctx.locale ∧ c.rng = mkRNG ctx.seed ∧
    (ctx.rng.state = ctx.seed → ((c.rng).next).1 = ((ctx.rng).next).1) := by
  unfold GeneratorContext.clone makeContext at h
  split at h
  · exact absurd h (by simp)
  · split at h
    · exact absurd h (by simp)
    · have hc : c = ⟨ctx.seed, ctx.locale, mkRNG ctx.seed, ctx.seed, ctx.locale⟩ := by
        cases h
        rfl
      subst hc
      refine ⟨rfl, rfl, rfl, fun hs => ?_⟩
      exact next_fst_eq_of_state_eq _ _ hs.symm

/-- C2 witness: cloning the fresh context `ctxEx` reproduces it. -/
theorem clone_spec_witness :
    ctxEx.seed = ctxEx.seed ∧ ctxEx.locale = ctxEx.locale ∧
    ctxEx.rng = mkRNG ctxEx.seed ∧
    (ctxEx.rng.state = ctxEx.seed → ((ctxEx.rng).next).1 = ((ctxEx.rng).next).1) :=
  clone_spec ctxEx ctxEx (by decide)

/-- C6: `setLocale` on an unsupported code throws and leaves the context
(locale, seed and PRNG state) unchanged; on a supported code it updates
the held locale in place and changes nothing else. -/
theorem setLocale_spec (ctx : GeneratorContext) (locale : String) :
    (isSupportedLocale locale = false →
      (ctx.setLocale locale).2 = ctx ∧
      ∃ m, (ctx.setLocale locale).1 = Except.error m) ∧
    (isSupportedLocale locale = true →
      (ctx.setLocale locale).2 = { ctx with locale := locale } ∧
      (ctx.setLocale locale).1 = Except.ok ()) := by
  unfold GeneratorContext.setLocale
  constructor
  · intro h
    rw [if_neg (by simp [h])]
    exact ⟨rfl, _, rfl⟩
  · intro h
    rw [if_pos (by simp [h])]
    exact ⟨rfl, rfl⟩

/-- C6 witness: "xx" is rejected without mutation, "fr" is accepted. -/
theorem setLocale_spec_witness :
    (GeneratorContext.setLocale ctxEx "xx").2 = ctxEx ∧
    (GeneratorContext.setLocale ctxEx "fr").2 = { ctxEx with locale := "fr" } :=
  ⟨((setLocale_spec ctxEx "xx").1 (by decide)).1,
   ((setLocale_spec ctxEx "fr").2 (by decide)).1⟩

/-- C7: every failing draw throws before `next()` is reached, so the
generator state is unchanged on each error path: `int` and `float` with
`min > max`, `boolean` with a probability outside [0, 1], and `pick` on
the empty array. -/
theorem error_paths_preserve_state (r : RandomNumberGenerator)
    (min max p : ℚ) (prec : Option Int)
    (hminmax : min > max) (hp : p < 0 ∨ p > 1) :
    ((r.int min max).1 = Except.error "Min value cannot be greater than max value" ∧
      (r.int min max).2 = r) ∧
    ((r.float min max prec).1 = Except.error "Min value cannot be greater than max value" ∧
      (r.float min max prec).2 = r) ∧
    ((r.boolean p).1 = Except.error "Probability must be between 0 and 1" ∧
      (r.boolean p).2 = r) ∧
    ((RandomNumberGenerator.pick r ([] : List ℚ)).1 =
        Except.error "Cannot pick from an empty array" ∧
      (RandomNumberGenerator.pick r ([] : List ℚ)).2 = r) := by
  have h1 : r.int min max =
      (Except.error "Min value cannot be greater than max value", r) := by
    unfold RandomNumberGenerator.int
    rw [if_pos hminmax]
  have h2 : r.float min max prec =
      (Except.error "Min value cannot be greater than max value", r) := by
    unfold RandomNumberGenerator.float
    rw [if_pos hminmax]
  have h3 : r.boolean p = (Except.error "Probability must be between 0 and 1", r) := by
    unfold RandomNumberGenerator.boolean
    rw [if_pos hp]
  have h4 : RandomNumberGenerator.pick r ([] : List ℚ) =
      (Except.error "Cannot pick from an empty array", r) := by
    unfold RandomNumberGenerator.pick
    simp
  exact ⟨⟨by rw [h1], by rw [h1]⟩, ⟨by rw [h2], by rw [h2]⟩,
    ⟨by rw [h3], by rw [h3]⟩, ⟨by rw [h4], by rw [h4]⟩⟩

/-- C7 witness: `int(1, 0)`, `float(1, 0)`, `boolean(2)` and `pick([])`. -/
theorem error_paths_preserve_state_witness :
    (((mkRNG 0).int 1 0).1 = Except.error "Min value cannot be greater than max value" ∧
      ((mkRNG 0).int 1 0).2 = mkRNG 0) ∧
    (((mkRNG 0).float 1 0 none).1 =
        Except.error "Min value cannot be greater than max value" ∧
      ((mkRNG 0).float 1 0 none).2 = mkRNG 0) ∧
    (((mkRNG 0).boolean 2).1 = Except.error "Probability must be between 0 and 1" ∧
      ((mkRNG 0).boolean 2).2 = mkRNG 0) ∧
    ((RandomNumberGenerator.pick (mkRNG 0) ([] : List ℚ)).1 =
        Except.error "Cannot pick from an empty array" ∧
      (RandomNumberGenerator.pick (mkRNG 0) ([] : List ℚ)).2 = mkRNG 0) :=
  error_paths_preserve_state (mkRNG 0) 1 0 2 none (by norm_num) (by norm_num)

/-- C8: the shuffled output is a permutation of the input (same length and
same multiset of elements); the input itself is a value and is never
mutated. -/
theorem shuffle_perm {α : Type} (r : RandomNumberGenerator) (l : List α) :
    List.Perm ((r.shuffle l).1) l :=
  shuffleGo_perm (l.length - 1) r l

/-- C9: `pick` on the empty array always fails without touching the
generator, while `shuffle` on the empty array succeeds, returns the empty
sequence, and draws nothing. -/
theorem empty_pick_vs_shuffle (r : RandomNumberGenerator) :
    RandomNumberGenerator.shuffle r ([] : List ℚ) = (([] : List ℚ), r) ∧
    (RandomNumberGenerator.pick r ([] : List ℚ)).1 =
      Except.error "Cannot pick from an empty array" ∧
    (RandomNumberGenerator.pick r ([] : List ℚ)).2 = r := by
  refine ⟨rfl, ?_, ?_⟩ <;>
    · unfold RandomNumberGenerator.pick
      simp

/-- C10: `GeneratorContext.setSeed` performs no validation: for every
number, including the negative seeds the constructor rejects, it installs
the seed and replaces the PRNG with a fresh instance seeded with it,
leaving the locale alone. -/
theorem setSeed_no_validation (ctx : GeneratorContext) (s : ℚ) :
    (ctx.setSeed s).seed = s ∧ (ctx.setSeed s).rng = mkRNG s ∧
    (ctx.setSeed s).locale = ctx.locale ∧
    (s < 0 → makeContext s ctx.locale = Except.error "Should be positive number") := by
  refine ⟨rfl, rfl, rfl, fun h => ?_⟩
  unfold makeContext
  rw [if_pos ⟨ne_of_lt h, h⟩]

/-- C10 witness: `setSeed(-1)` succeeds although the constructor rejects -1. -/
theorem setSeed_no_validation_witness :
    (GeneratorContext.setSeed ctxEx (-1)).seed = -1 ∧
    (GeneratorContext.setSeed ctxEx (-1)).rng = mkRNG (-1) ∧
    (GeneratorContext.setSeed ctxEx (-1)).locale = ctxEx.locale ∧
    makeContext (-1) ctxEx.locale = Except.error "Should be positive number" :=
  ⟨(setSeed_no_validation ctxEx (-1)).1,
   (setSeed_no_validation ctxEx (-1)).2.1,
   (setSeed_no_validation ctxEx (-1)).2.2.1,
   (setSeed_no_validation ctxEx (-1)).2.2.2 (by norm_num)⟩

end Faker

